import Mathlib

/-!
Shallow embedding of `scraper.py` (class `GoogleScraper` plus its CLI entry
point) and proofs about its behaviour.

The scraper drives a browser: it navigates to a search URL built from the
query, scrolls, collects result containers (`div.g`), extracts three
sub-elements from each (`h3`, `a`, `div.VwiC3b`), filters records by Python
truthiness of title and URL, and serializes the collected records to CSV via
pandas.  The browser and filesystem are modelled by explicit data: a page
outcome value stands for what the driver session delivers, and the output
file is an `Option String` holding the file's content when it exists.
-/

namespace Scraper

/-- A DOM element as observed through the driver API: its visible `text` and
its `href` attribute (`get_attribute("href")` may return no value, hence
`Option`). -/
structure Element where
  text : String
  attrHref : Option String
deriving DecidableEq

/-- One search-result container (`div.g`).  Each field models the outcome of
`find_element` for the corresponding CSS selector: `none` means the selector
matches nothing and `find_element` raises `NoSuchElementException`. -/
structure Container where
  h3 : Option Element
  a : Option Element
  vwic3b : Option Element
deriving DecidableEq

/-- A collected record, as appended by `scrape`:
`{"Title": title, "URL": url, "Description": description}`. -/
structure SearchRecord where
  Title : String
  URL : String
  Description : String
deriving DecidableEq

/-- The `Title` text of a container, when its `h3` element exists. -/
def containerTitleText (c : Container) : Option String :=
  c.h3.map Element.text

/-- The `href` attribute of a container's `a` element, when that element
exists and carries the attribute. -/
def containerUrlAttr (c : Container) : Option String :=
  c.a.bind Element.attrHref

/-- Body of the per-result loop in `scrape` (lines 68-81 of `scraper.py`):
look up the three sub-elements (a missing one raises
`NoSuchElementException`, caught by the inner `except`, so the container is
skipped), read `title`, `url`, `description`, and keep the record only when
`title and url` is truthy (both non-empty; a missing `href` gives `None`,
which is falsy). -/
def extractResult (result : Container) : Option SearchRecord :=
  match result.h3, result.a, result.vwic3b with
  | some titleElement, some urlElement, some descriptionElement =>
    let title := titleElement.text
    let description := descriptionElement.text
    match urlElement.attrHref with
    | some url =>
      if title ≠ "" ∧ url ≠ "" then
        some { Title := title, URL := url, Description := description }
      else
        none
    | none => none
  | _, _, _ => none

/-- The `for result in search_results` loop: records are appended to
`self.results` in encounter order; containers whose extraction fails
contribute nothing. -/
def scrapeLoop (containers : List Container) (results : List SearchRecord) :
    List SearchRecord :=
  match containers with
  | [] => results
  | c :: rest =>
    match extractResult c with
    | some r => scrapeLoop rest (results ++ [r])
    | none => scrapeLoop rest results

/-- What the driver session delivers to `scrape`: either `driver.get`
raises, or the page loads with or without a `body` element and with a list
of `div.g` result containers. -/
inductive PageLoad where
  | loadError : PageLoad
  | loaded (bodyPresent : Bool) (containers : List Container) : PageLoad
deriving DecidableEq

/-- Observable outcome of one `scrape` call: the final `self.results`, the
URL passed to `driver.get`, whether `driver.quit` ran, and whether an
exception escaped to the caller. -/
structure ScrapeOutcome where
  results : List SearchRecord
  navigatedUrl : String
  quitCalled : Bool
  raised : Bool

/-- The search URL built on line 56: an f-string concatenation with no
escaping or encoding of the query. -/
def searchUrl (query : String) : String :=
  "https://www.google.com/search?q=" ++ query

/-- The `scrape` method (lines 50-87).  `st` is `self.results` on entry,
`numScrolls` is `self.num_scrolls`.  `driver.get` failure and a missing
`body` during a scroll iteration raise an exception that the outer
`except Exception` catches; the `finally` block always calls
`driver.quit`, and no exception propagates. -/
def scrape (st : List SearchRecord) (query : String) (numScrolls : Nat)
    (page : PageLoad) : ScrapeOutcome :=
  let url := searchUrl query
  match page with
  | PageLoad.loadError =>
    { results := st, navigatedUrl := url, quitCalled := true, raised := false }
  | PageLoad.loaded bodyPresent containers =>
    if numScrolls ≠ 0 ∧ bodyPresent = false then
      { results := st, navigatedUrl := url, quitCalled := true, raised := false }
    else
      { results := scrapeLoop containers st, navigatedUrl := url,
        quitCalled := true, raised := false }

/-- QUOTE_MINIMAL: pandas `to_csv` quotes a field iff it contains the
delimiter, the quote character, or a line break. -/
def csvNeedsQuoting (s : String) : Bool :=
  s.data.any fun c => c = ',' || c = '"' || c = '\n' || c = '\r'

/-- One serialized CSV field, with embedded quotes doubled when the field is
quoted. -/
def csvField (s : String) : String :=
  if csvNeedsQuoting s then
    "\"" ++ String.join (s.data.map fun c =>
      if c = '"' then "\"\"" else String.singleton c) ++ "\""
  else s

/-- The header line written by `df.to_csv(..., index=False)`: the dict keys
of the records, in insertion order. -/
def csvHeader : String := "Title,URL,Description"

/-- One serialized data row. -/
def csvRow (r : SearchRecord) : String :=
  csvField r.Title ++ "," ++ csvField r.URL ++ "," ++ csvField r.Description

/-- The CSV rows in file order: header first, then one row per record. -/
def csvRows (rs : List SearchRecord) : List String :=
  csvHeader :: rs.map csvRow

/-- The full file content: every row terminated by a newline. -/
def csvContent (rs : List SearchRecord) : String :=
  String.join ((csvRows rs).map fun row => row ++ "\n")

/-- Observable outcome of one `save_to_csv` call: `self.results` afterwards,
the output file's content, whether a write happened, and whether an
exception escaped. -/
structure SaveOutcome where
  results : List SearchRecord
  file : Option String
  wroteFile : Bool
  raised : Bool

/-- The fallible write `df.to_csv(file_name, index=False)`: `writeOk` says
whether the filesystem accepts the write; failure raises. -/
def tryWrite (rs : List SearchRecord) (writeOk : Bool) :
    Except String String :=
  if writeOk then Except.ok (csvContent rs) else Except.error "write failed"

/-- The `save_to_csv` method (lines 89-104).  An empty `self.results`
returns early with no write; otherwise the write is attempted and any
exception is caught and logged, so none propagates and `self.results` is
never modified. -/
def saveToCsv (results : List SearchRecord) (writeOk : Bool)
    (file : Option String) : SaveOutcome :=
  if results = [] then
    { results := results, file := file, wroteFile := false, raised := false }
  else
    match tryWrite results writeOk with
    | Except.ok content =>
      { results := results, file := some content, wroteFile := true,
        raised := false }
    | Except.error _ =>
      { results := results, file := file, wroteFile := false, raised := false }

/-- Python `str` whitespace for `strip()` on ASCII input. -/
def pyWhitespace (c : Char) : Bool :=
  c = ' ' || c = '\t' || c = '\n' || c = '\r' || c = '\x0b' || c = '\x0c'

/-- Strip whitespace from both ends of a character list. -/
def stripChars (cs : List Char) : List Char :=
  List.rdropWhile pyWhitespace (List.dropWhile pyWhitespace cs)

/-- Python's `str.strip()` (no argument) on ASCII input. -/
def pyStrip (s : String) : String :=
  String.mk (stripChars s.data)

/-- After an optional leading underscore-free digit, the rest of a Python
integer literal: digits, with single underscores allowed only between
digits. -/
def pyIntTail : List Char → Bool
  | [] => true
  | ['_'] => false
  | '_' :: c :: rest => c.isDigit && pyIntTail rest
  | c :: rest => c.isDigit && pyIntTail rest

/-- A non-empty digit sequence with single underscores between digits, as
accepted by `int()` after the sign. -/
def pyIntDigits : List Char → Bool
  | [] => false
  | c :: rest => c.isDigit && pyIntTail rest

/-- Numeric value of a digit sequence, ignoring underscores. -/
def digitsVal (cs : List Char) : Nat :=
  cs.foldl (fun a c => if c = '_' then a else a * 10 + (c.toNat - 48)) 0

/-- Parse an already-stripped character sequence the way CPython's `int()`
does on ASCII input: optional sign, then digits with underscore separators;
anything else raises `ValueError` (here: `none`). -/
def pyIntOfStripped (cs : List Char) : Option Int :=
  match cs with
  | '+' :: rest =>
    if pyIntDigits rest then some (Int.ofNat (digitsVal rest)) else none
  | '-' :: rest =>
    if pyIntDigits rest then some (-(Int.ofNat (digitsVal rest))) else none
  | _ => if pyIntDigits cs then some (Int.ofNat (digitsVal cs)) else none

/-- CPython's `int(s)` on an ASCII string: surrounding whitespace is
stripped, then the literal is parsed; `none` models the `ValueError`. -/
def pyInt (s : String) : Option Int :=
  pyIntOfStripped (stripChars s.data)

/-- The CLI scroll-count logic (lines 108-112):
`int(input(...).strip() or 2)` inside `try`, with `except ValueError`
setting the count to 2.  An empty stripped input short-circuits `or` to the
integer 2; a non-parsing input raises `ValueError`, which is caught. -/
def cliNumScrolls (raw : String) : Int :=
  let s := pyStrip raw
  if s = "" then 2
  else
    match pyInt s with
    | some n => n
    | none => 2

/-! ### Helper lemmas -/

/-- The append loop of `scrape` collects exactly the successfully extracted
records, in container order. -/
theorem scrapeLoop_eq (containers : List Container)
    (acc : List SearchRecord) :
    scrapeLoop containers acc = acc ++ containers.filterMap extractResult := by
  induction containers generalizing acc with
  | nil => simp [scrapeLoop]
  | cons c rest ih =>
    cases h : extractResult c with
    | none => simp [scrapeLoop, h, ih]
    | some r => simp [scrapeLoop, h, ih]

/-- A container with a missing sub-element extracts to nothing. -/
theorem extractResult_eq_none_of_missing (c : Container)
    (h : c.h3 = none ∨ c.a = none ∨ c.vwic3b = none) :
    extractResult c = none := by
  obtain ⟨h3, a, v⟩ := c
  rcases h with h | h | h <;> simp only at h <;> subst h
  · cases a <;> cases v <;> rfl
  · cases h3 <;> cases v <;> rfl
  · cases h3 <;> cases a <;> rfl

/-- The head of whatever `dropWhile` leaves does not satisfy the
predicate. -/
theorem dropWhile_head_false {α : Type} (p : α → Bool) :
    ∀ (l : List α) (c : α) (t : List α),
      List.dropWhile p l = c :: t → p c = false := by
  intro l
  induction l with
  | nil => intro c t h; simp [List.dropWhile] at h
  | cons x xs ih =>
    intro c t h
    by_cases hx : p x
    · rw [List.dropWhile_cons_of_pos hx] at h
      exact ih c t h
    · rw [List.dropWhile_cons_of_neg hx] at h
      cases h
      exact Bool.of_not_eq_true hx

/-- Dropping a satisfied prefix from a list that ends in an unsatisfied
element leaves a list that still ends in that element. -/
theorem dropWhile_append_singleton {α : Type} (p : α → Bool) (c : α)
    (hc : p c = false) :
    ∀ xs : List α, ∃ r, List.dropWhile p (xs ++ [c]) = r ++ [c] := by
  intro xs
  induction xs with
  | nil =>
    refine ⟨[], ?_⟩
    simp [List.dropWhile_cons_of_neg, hc]
  | cons x xs ih =>
    by_cases hx : p x
    · obtain ⟨r, hr⟩ := ih
      exact ⟨r, by rw [List.cons_append, List.dropWhile_cons_of_pos hx, hr]⟩
    · exact ⟨x :: xs, by rw [List.cons_append, List.dropWhile_cons_of_neg hx]⟩

/-- On a list whose head fails the predicate, `rdropWhile` leaves the head
in place, so a further front `dropWhile` is the identity. -/
theorem dropWhile_rdropWhile_cons {α : Type} (p : α → Bool) (c : α)
    (t : List α) (hc : p c = false) :
    List.dropWhile p (List.rdropWhile p (c :: t)) =
      List.rdropWhile p (c :: t) := by
  unfold List.rdropWhile
  have hrev : (c :: t).reverse = t.reverse ++ [c] := by simp
  rw [hrev]
  obtain ⟨r, hr⟩ := dropWhile_append_singleton p c hc t.reverse
  rw [hr]
  have : (r ++ [c]).reverse = c :: r.reverse := by simp
  rw [this, List.dropWhile_cons_of_neg (by simp [hc])]

/-- Python's `strip` is idempotent. -/
theorem stripChars_idem (cs : List Char) :
    stripChars (stripChars cs) = stripChars cs := by
  unfold stripChars
  cases hm : List.dropWhile pyWhitespace cs with
  | nil => simp [List.rdropWhile_nil, List.dropWhile]
  | cons c t =>
    have hc : pyWhitespace c = false := dropWhile_head_false pyWhitespace cs c t hm
    rw [dropWhile_rdropWhile_cons pyWhitespace c t hc,
      List.rdropWhile_idempotent]

/-- `String.join` distributes over `cons`. -/
theorem stringJoin_cons (s : String) (l : List String) :
    String.join (s :: l) = s ++ String.join l := by
  have haux : ∀ (l : List String) (a : String),
      List.foldl (fun r t => r ++ t) a l =
        a ++ List.foldl (fun r t => r ++ t) "" l := by
    intro l
    induction l with
    | nil => intro a; simp
    | cons x xs ih =>
      intro a
      simp only [List.foldl_cons]
      rw [ih (a ++ x), ih ("" ++ x)]
      simp [String.append_assoc]
  simp only [String.join, List.foldl_cons]
  rw [haux l ("" ++ s)]
  simp

/-- A record is extracted from a container exactly when all three
sub-elements are present, the title text is non-empty, and the `href`
attribute exists and is non-empty. -/
theorem extractResult_isSome_iff (c : Container) :
    (extractResult c).isSome = true ↔
      (c.vwic3b.isSome = true ∧
       (∃ t, containerTitleText c = some t ∧ t ≠ "") ∧
       (∃ u, containerUrlAttr c = some u ∧ u ≠ "")) := by
  obtain ⟨h3, a, v⟩ := c
  cases h3 with
  | none => simp [extractResult, containerTitleText]
  | some te =>
    cases a with
    | none => simp [extractResult, containerUrlAttr]
    | some ue =>
      cases v with
      | none => simp [extractResult]
      | some de =>
        cases hu : ue.attrHref with
        | none => simp [extractResult, containerTitleText, containerUrlAttr, hu]
        | some u =>
          by_cases ht : te.text = "" <;> by_cases hu2 : u = "" <;>
            simp [extractResult, containerTitleText, containerUrlAttr, hu,
              ht, hu2]

/-- The loop over a single container yields exactly the record that the
container extracts to, if any. -/
theorem scrapeLoop_singleton (c : Container) :
    scrapeLoop [c] [] = (extractResult c).toList := by
  cases h : extractResult c <;> simp [scrapeLoop, h]

/-! ### Claim theorems -/

/-- A container whose title and URL sub-elements carry non-empty values but
whose description element (`div.VwiC3b`) is missing. -/
def cexContainer : Container :=
  { h3 := some { text := "Example Domain", attrHref := none },
    a := some { text := "", attrHref := some "https://example.com" },
    vwic3b := none }

/-- C1 (counterexample): a container whose Title text and URL attribute are
both non-empty yields no record when its description element is missing, so
inclusion is not equivalent to Title and URL being non-empty. -/
theorem scrape_included_iff_cex :
    containerTitleText cexContainer = some "Example Domain" ∧
    containerUrlAttr cexContainer = some "https://example.com" ∧
    ("Example Domain" : String) ≠ "" ∧
    ("https://example.com" : String) ≠ "" ∧
    scrapeLoop [cexContainer] [] = [] :=
  ⟨rfl, rfl, by decide, by decide, rfl⟩

/-- C1 (amended): a record for a scanned container is included in the
collected output exactly when all three sub-elements are present, its Title
text is non-empty, and its URL attribute exists and is non-empty. -/
theorem scrape_included_iff (c : Container) :
    scrapeLoop [c] [] ≠ [] ↔
      (c.vwic3b.isSome = true ∧
       (∃ t, containerTitleText c = some t ∧ t ≠ "") ∧
       (∃ u, containerUrlAttr c = some u ∧ u ≠ "")) := by
  rw [scrapeLoop_singleton, ← extractResult_isSome_iff c]
  cases extractResult c <;> simp

/-- A container with all three sub-elements present and non-empty title and
URL values. -/
def wContainer : Container :=
  { h3 := some { text := "Selenium", attrHref := none },
    a := some { text := "link", attrHref := some "https://selenium.dev" },
    vwic3b := some { text := "Browser automation", attrHref := none } }

/-- C1 (witness): the amended equivalence applied to a concrete qualifying
container. -/
theorem scrape_included_iff_witness : scrapeLoop [wContainer] [] ≠ [] :=
  (scrape_included_iff wContainer).mpr
    ⟨by decide, ⟨"Selenium", by decide⟩, ⟨"https://selenium.dev", by decide⟩⟩

/-- C2: a container missing any of the three sub-elements is skipped (it
contributes no record) and all remaining containers are still processed. -/
theorem scrape_missing_field_skips (cs1 cs2 : List Container) (c : Container)
    (acc : List SearchRecord)
    (h : c.h3 = none ∨ c.a = none ∨ c.vwic3b = none) :
    scrapeLoop (cs1 ++ c :: cs2) acc = scrapeLoop (cs1 ++ cs2) acc := by
  have hnone := extractResult_eq_none_of_missing c h
  rw [scrapeLoop_eq, scrapeLoop_eq, List.filterMap_append,
    List.filterMap_append, List.filterMap_cons_none hnone]

/-- A container whose description element is absent. -/
def skipContainer : Container :=
  { h3 := some { text := "Result title", attrHref := none },
    a := some { text := "", attrHref := some "https://host.example/page" },
    vwic3b := none }

/-- C2 (witness): skipping applied to a concrete container with a missing
description element. -/
theorem scrape_missing_field_skips_witness :
    scrapeLoop ([] ++ skipContainer :: []) [] = scrapeLoop ([] ++ []) [] :=
  scrape_missing_field_skips [] [] skipContainer [] (Or.inr (Or.inr rfl))

/-- C3: with an empty results collection, `save_to_csv` returns early: the
output file is neither created nor modified and no write is attempted. -/
theorem save_empty_no_write (writeOk : Bool) (file : Option String) :
    (saveToCsv [] writeOk file).file = file ∧
    (saveToCsv [] writeOk file).wroteFile = false :=
  ⟨rfl, rfl⟩

/-- C4: any scroll-count input that `int()` rejects makes the CLI fall back
to a scroll count of 2; the `ValueError` is caught, so `cliNumScrolls` is a
total function and nothing propagates. -/
theorem cli_invalid_scrolls_default (raw : String) (h : pyInt raw = none) :
    cliNumScrolls raw = 2 := by
  unfold cliNumScrolls
  by_cases hs : pyStrip raw = ""
  · simp [hs]
  · have hnone : pyInt (pyStrip raw) = none := by
      unfold pyInt at h ⊢
      have hd : (pyStrip raw).data = stripChars raw.data := rfl
      rw [hd, stripChars_idem]
      exact h
    simp [hs, hnone]

/-- C4 (witness): the fallback applied to the concrete non-numeric
input string abc. -/
theorem cli_invalid_scrolls_default_witness : cliNumScrolls "abc" = 2 :=
  cli_invalid_scrolls_default "abc" (by decide)

/-- C5: with at least one record and a successful write, the file content
starts with the header row, and the rows written are the header plus exactly
one data row per collected record. -/
theorem save_header_and_rowcount (rs : List SearchRecord) (h : rs ≠ [])
    (file : Option String) :
    (saveToCsv rs true file).file = some (csvContent rs) ∧
    (∃ rest, csvContent rs = "Title,URL,Description\n" ++ rest) ∧
    (csvRows rs).length = rs.length + 1 := by
  refine ⟨?_, ⟨String.join ((rs.map csvRow).map fun row => row ++ "\n"), ?_⟩, ?_⟩
  · simp [saveToCsv, h, tryWrite]
  · rw [csvContent]
    simp only [csvRows, List.map_cons]
    rw [stringJoin_cons]
    rfl
  · simp [csvRows]

/-- A qualifying record as collected by `scrape`. -/
def wRecord : SearchRecord :=
  { Title := "Lean", URL := "https://leanprover.github.io",
    Description := "theorem prover" }

/-- C5 (witness): header and row count for a concrete single-record
collection. -/
theorem save_header_and_rowcount_witness :
    (saveToCsv [wRecord] true none).file = some (csvContent [wRecord]) ∧
    (∃ rest, csvContent [wRecord] = "Title,URL,Description\n" ++ rest) ∧
    (csvRows [wRecord]).length = [wRecord].length + 1 :=
  save_header_and_rowcount [wRecord] (by decide) none

/-- C6: collection is in page order: the records of a concatenation of
container lists are the records of the parts in order, and over any list the
loop collects exactly the in-order extraction of the qualifying
containers. -/
theorem scrape_order_preserved (cs1 cs2 : List Container) :
    scrapeLoop (cs1 ++ cs2) [] = scrapeLoop cs1 [] ++ scrapeLoop cs2 [] ∧
    scrapeLoop cs1 [] = cs1.filterMap extractResult := by
  constructor
  · rw [scrapeLoop_eq, scrapeLoop_eq, scrapeLoop_eq]
    simp [List.filterMap_append]
  · rw [scrapeLoop_eq]
    simp

/-- C7: for every page outcome (load failure, missing body, or a loaded
result list), `scrape` calls `driver.quit` and lets no exception escape. -/
theorem scrape_quits_no_raise (st : List SearchRecord) (q : String)
    (n : Nat) (p : PageLoad) :
    (scrape st q n p).quitCalled = true ∧ (scrape st q n p).raised = false := by
  cases p with
  | loadError => exact ⟨rfl, rfl⟩
  | loaded bodyPresent containers =>
    by_cases hb : n ≠ 0 ∧ bodyPresent = false <;> simp [scrape, hb]

/-- C8: when the CSV write fails on a non-empty collection, `save_to_csv`
catches the failure: nothing propagates, the file is untouched, and the
in-memory results are unchanged. -/
theorem save_write_failure_handled (rs : List SearchRecord) (h : rs ≠ [])
    (file : Option String) :
    (saveToCsv rs false file).raised = false ∧
    (saveToCsv rs false file).file = file ∧
    (saveToCsv rs false file).results = rs := by
  simp [saveToCsv, h, tryWrite]

/-- A record present in memory while the write fails. -/
def failRecord : SearchRecord :=
  { Title := "Kernel", URL := "https://kernel.org", Description := "" }

/-- C8 (witness): the write-failure behaviour on a concrete one-record
collection. -/
theorem save_write_failure_handled_witness :
    (saveToCsv [failRecord] false none).raised = false ∧
    (saveToCsv [failRecord] false none).file = none ∧
    (saveToCsv [failRecord] false none).results = [failRecord] :=
  save_write_failure_handled [failRecord] (by decide) none

/-- A record that remains in memory after a successful save. -/
def keptRecord : SearchRecord :=
  { Title := "Example", URL := "https://example.org", Description := "docs" }

/-- C9 (counterexample): after `save_to_csv` successfully writes a
non-empty collection, the in-memory collection still holds the records; it
is not discarded. -/
theorem save_results_not_discarded_cex :
    (saveToCsv [keptRecord] true none).wroteFile = true ∧
    (saveToCsv [keptRecord] true none).results = [keptRecord] ∧
    ([keptRecord] : List SearchRecord) ≠ [] :=
  ⟨rfl, rfl, by decide⟩

/-- C9 (amended): `save_to_csv` never modifies the in-memory record
collection; the records are retained after the write and are only discarded
when the process exits. -/
theorem save_results_retained (rs : List SearchRecord) (writeOk : Bool)
    (file : Option String) :
    (saveToCsv rs writeOk file).results = rs := by
  unfold saveToCsv
  split
  · rfl
  · cases htw : tryWrite rs writeOk <;> simp [htw]

/-- C10: the URL `scrape` navigates to is the literal concatenation of the
fixed base and the raw query: character for character, no escaping or
encoding is applied to spaces or URL-reserved characters. -/
theorem scrape_url_literal_concat (st : List SearchRecord) (q : String)
    (n : Nat) (p : PageLoad) :
    (scrape st q n p).navigatedUrl = "https://www.google.com/search?q=" ++ q ∧
    ((scrape st q n p).navigatedUrl).data =
      "https://www.google.com/search?q=".data ++ q.data := by
  have hnav : (scrape st q n p).navigatedUrl = searchUrl q := by
    cases p with
    | loadError => rfl
    | loaded b cs =>
      by_cases hb : n ≠ 0 ∧ b = false <;> simp [scrape, hb]
  rw [hnav]
  exact ⟨rfl, rfl⟩

end Scraper
